/-
Verification of the hybrid company-registry extraction pipeline
(`uk_company_scraper_hybrid.py`) against its natural-language specification.

The Python source is shallowly embedded: parsed JSON payloads become Lean
structures with `Option` fields (a missing dictionary key is `none`), network
calls become an explicit `Fetch` oracle carried in an `Env` record, and the
Streamlit re-invocation workflow becomes a step function on a `SessionState`
record.  Every definition mirrors the corresponding Python function.
-/
import Mathlib

set_option maxRecDepth 10000

namespace Coho

/-! ## String helpers mirroring the Python primitives used by the scraper -/

/-- Python `str.lower()` restricted to the characters that occur here. -/
def pyLower (s : String) : String := ⟨s.data.map Char.toLower⟩

/-- Python `str.strip()`: drop leading and trailing whitespace. -/
def pyStrip (s : String) : String :=
  ⟨((s.data.dropWhile Char.isWhitespace).reverse.dropWhile Char.isWhitespace).reverse⟩

/-- Helper for substring search: does `needle` occur inside `hay` (as lists)? -/
def charsInfixOf (needle : List Char) : List Char → Bool
  | [] => needle.isEmpty
  | c :: t => needle.isPrefixOf (c :: t) || charsInfixOf needle t

/-- Python `needle in hay` on strings. -/
def strContains (hay needle : String) : Bool := charsInfixOf needle.data hay.data

/-- Python `str.startswith(pre)`. -/
def pyStartsWith (s pre : String) : Bool := pre.data.isPrefixOf s.data

/-- Python `str.isdigit()` (ASCII digits, nonempty). -/
def pyIsDigit (s : String) : Bool := !s.data.isEmpty && s.data.all Char.isDigit

/-- Python `int(s)` on a digit string. -/
def pyInt (s : String) : Nat := s.data.foldl (fun n c => n * 10 + (c.toNat - 48)) 0

/-! ## Parsed-JSON data model

Each structure stands for the Python dictionary returned by `response.json()`.
A field is `none` when the corresponding key is absent from the dictionary. -/

structure Address where
  address_line_1 : Option String := none
  address_line_2 : Option String := none
  locality : Option String := none
  region : Option String := none
  postal_code : Option String := none
  country : Option String := none
deriving DecidableEq, Repr

structure AccountsInfo where
  next_due : Option String := none
  next_made_up_to : Option String := none
  last_accounts_made_up_to : Option String := none
deriving DecidableEq, Repr

structure ConfirmationStatement where
  next_due : Option String := none
  next_made_up_to : Option String := none
  last_made_up_to : Option String := none
deriving DecidableEq, Repr

structure ProfileData where
  company_name : Option String := none
  company_number : Option String := none
  company_status : Option String := none
  company_type : Option String := none
  date_of_creation : Option String := none
  jurisdiction : Option String := none
  registered_office_address : Option Address := none
  sic_codes : Option (List String) := none
  accounts : Option AccountsInfo := none
  confirmation_statement : Option ConfirmationStatement := none
deriving DecidableEq, Repr

structure DateOfBirth where
  month : Option Nat := none
  year : Option Nat := none
deriving DecidableEq, Repr

structure Officer where
  name : Option String := none
  officer_role : Option String := none
  appointed_on : Option String := none
  resigned_on : Option String := none
  nationality : Option String := none
  country_of_residence : Option String := none
  occupation : Option String := none
  date_of_birth : Option DateOfBirth := none
  address : Option Address := none
deriving DecidableEq, Repr

structure OfficersData where
  total_results : Option Nat := none
  items : Option (List Officer) := none
deriving DecidableEq, Repr

structure Psc where
  name : Option String := none
  kind : Option String := none
  notified_on : Option String := none
  nationality : Option String := none
  country_of_residence : Option String := none
  date_of_birth : Option DateOfBirth := none
  natures_of_control : Option (List String) := none
  address : Option Address := none
deriving DecidableEq, Repr

structure PscData where
  total_results : Option Nat := none
  items : Option (List Psc) := none
deriving DecidableEq, Repr

structure FilingLinks where
  document_metadata : Option String := none
deriving DecidableEq, Repr

structure Filing where
  date : Option String := none
  description : Option String := none
  category : Option String := none
  filing_type : Option String := none
  action_date : Option String := none
  pages : Option Nat := none
  links : Option FilingLinks := none
deriving DecidableEq, Repr

structure FilingData where
  total_count : Option Nat := none
  items : Option (List Filing) := none
deriving DecidableEq, Repr

/-! ## Rendering helpers (the `format_*` methods) -/

/-- Python `data.get(key, 'N/A')`. -/
def getNA (o : Option String) : String := o.getD "N/A"

/-- A line emitted only when the key is present (`if key in d: ...`). -/
def optLine (pre : String) (o : Option String) : String :=
  match o with
  | some s => pre ++ s ++ "\n"
  | none => ""

/-- The address-assembly loop shared by profile, officers and PSC rendering:
keep each field that is present and truthy (nonempty), in the fixed order. -/
def addressParts (a : Address) : List String :=
  [a.address_line_1, a.address_line_2, a.locality, a.region, a.postal_code,
   a.country].filterMap fun o =>
    match o with
    | some s => if s.isEmpty then none else some s
    | none => none

/-- Python `f"{dob.get('month', '')}/{dob.get('year', '')}"`. -/
def dobStr (d : DateOfBirth) : String :=
  (d.month.map toString).getD "" ++ "/" ++ (d.year.map toString).getD ""

/-- The `"=" * 50` separator. -/
def sepEq50 : String := ⟨List.replicate 50 '='⟩

/-- The `"-" * 40` separator. -/
def sepDash40 : String := ⟨List.replicate 40 '-'⟩

/-- `format_company_profile` from the source; `none` is the empty dict. -/
def format_company_profile : Option ProfileData → String
  | none => "=== COMPANY OVERVIEW ===\n\nNo data available from API\n"
  | some d =>
    let base :=
      "=== COMPANY OVERVIEW ===\n\n" ++
      "Company Name: " ++ getNA d.company_name ++ "\n" ++
      "Company Number: " ++ getNA d.company_number ++ "\n" ++
      "Company Status: " ++ getNA d.company_status ++ "\n" ++
      "Company Type: " ++ getNA d.company_type ++ "\n" ++
      "Incorporated On: " ++ getNA d.date_of_creation ++ "\n" ++
      "Jurisdiction: " ++ getNA d.jurisdiction ++ "\n"
    let withAddr :=
      match d.registered_office_address with
      | some addr =>
          base ++ "Registered Office Address: " ++
            String.intercalate ", " (addressParts addr) ++ "\n"
      | none => base
    let withSic :=
      match d.sic_codes with
      | some sics =>
          if sics.isEmpty then withAddr
          else withAddr ++ "\nNature of Business (SIC):\n" ++
            String.join (sics.map fun s => "  " ++ s ++ "\n")
      | none => withAddr
    let withAcc :=
      match d.accounts with
      | some a =>
          withSic ++ "\n=== ACCOUNTS INFORMATION ===\n" ++
          "Next Accounts Due: " ++ getNA a.next_due ++ "\n" ++
          "Next Made Up To: " ++ getNA a.next_made_up_to ++ "\n" ++
          "Last Accounts Made Up To: " ++ getNA a.last_accounts_made_up_to ++ "\n"
      | none => withSic
    match d.confirmation_statement with
    | some cs =>
        withAcc ++ "\n=== CONFIRMATION STATEMENT ===\n" ++
        "Next Statement Date: " ++ getNA cs.next_due ++ "\n" ++
        "Next Made Up To: " ++ getNA cs.next_made_up_to ++ "\n" ++
        "Last Made Up To: " ++ getNA cs.last_made_up_to ++ "\n"
    | none => withAcc

/-- One officer block of `format_officers` (loop body, 1-based index `i`). -/
def renderOfficer (i : Nat) (o : Officer) : String :=
  "Officer " ++ toString i ++ ":\n" ++
  "  Name: " ++ getNA o.name ++ "\n" ++
  "  Role: " ++ getNA o.officer_role ++ "\n" ++
  "  Appointed On: " ++ getNA o.appointed_on ++ "\n" ++
  optLine "  Resigned On: " o.resigned_on ++
  optLine "  Nationality: " o.nationality ++
  optLine "  Country of Residence: " o.country_of_residence ++
  optLine "  Occupation: " o.occupation ++
  (match o.date_of_birth with
   | some d => "  Date of Birth: " ++ dobStr d ++ "\n"
   | none => "") ++
  (match o.address with
   | some a => "  Address: " ++ String.intercalate ", " (addressParts a) ++ "\n"
   | none => "") ++
  "\n" ++ sepEq50 ++ "\n\n"

/-- The officer loop, counting from `i`. -/
def renderOfficers (i : Nat) : List Officer → String
  | [] => ""
  | o :: rest => renderOfficer i o ++ renderOfficers (i + 1) rest

/-- `format_officers` from the source. -/
def format_officers : Option OfficersData → String
  | none => "=== OFFICERS INFORMATION ===\n\nNo officers data available\n"
  | some d =>
    match d.items with
    | none => "=== OFFICERS INFORMATION ===\n\nNo officers data available\n"
    | some items =>
        "=== OFFICERS INFORMATION ===\n\n" ++
        "Total Officers: " ++ toString (d.total_results.getD 0) ++ "\n\n" ++
        renderOfficers 1 items

/-- One PSC block of `format_psc` (loop body, 1-based index `i`). -/
def renderPsc (i : Nat) (p : Psc) : String :=
  "PSC " ++ toString i ++ ":\n" ++
  "  Name: " ++ getNA p.name ++ "\n" ++
  "  Kind: " ++ getNA p.kind ++ "\n" ++
  "  Notified On: " ++ getNA p.notified_on ++ "\n" ++
  optLine "  Nationality: " p.nationality ++
  optLine "  Country of Residence: " p.country_of_residence ++
  (match p.date_of_birth with
   | some d => "  Date of Birth: " ++ dobStr d ++ "\n"
   | none => "") ++
  (match p.natures_of_control with
   | some cs => "  Nature of Control:\n" ++
       String.join (cs.map fun c => "    - " ++ c ++ "\n")
   | none => "") ++
  (match p.address with
   | some a => "  Address: " ++ String.intercalate ", " (addressParts a) ++ "\n"
   | none => "") ++
  "\n" ++ sepEq50 ++ "\n\n"

/-- The PSC loop, counting from `i`. -/
def renderPscs (i : Nat) : List Psc → String
  | [] => ""
  | p :: rest => renderPsc i p ++ renderPscs (i + 1) rest

/-- `format_psc` from the source. -/
def format_psc : Option PscData → String
  | none => "=== PERSONS WITH SIGNIFICANT CONTROL ===\n\nNo PSC data available\n"
  | some d =>
    match d.items with
    | none => "=== PERSONS WITH SIGNIFICANT CONTROL ===\n\nNo PSC data available\n"
    | some items =>
        "=== PERSONS WITH SIGNIFICANT CONTROL ===\n\n" ++
        "Total PSCs: " ++ toString (d.total_results.getD 0) ++ "\n\n" ++
        renderPscs 1 items

/-- `'links' in filing and 'document_metadata' in filing['links']`. -/
def filingHasDoc (f : Filing) : Bool :=
  match f.links with
  | some l => l.document_metadata.isSome
  | none => false

/-- One filing block of `format_filing_history` (loop body, 1-based `i`). -/
def renderFiling (i : Nat) (f : Filing) : String :=
  "Filing " ++ toString i ++ ":\n" ++
  "  Date: " ++ getNA f.date ++ "\n" ++
  "  Description: " ++ getNA f.description ++ "\n" ++
  "  Category: " ++ getNA f.category ++ "\n" ++
  "  Type: " ++ getNA f.filing_type ++ "\n" ++
  optLine "  Action Date: " f.action_date ++
  (match f.pages with
   | some p => "  Pages: " ++ toString p ++ "\n"
   | none => "") ++
  (if filingHasDoc f then "  Document Available: Yes\n"
   else "  Document Available: No\n") ++
  "\n" ++ sepDash40 ++ "\n\n"

/-- The filing loop, counting from `i`. -/
def renderFilings (i : Nat) : List Filing → String
  | [] => ""
  | f :: rest => renderFiling i f ++ renderFilings (i + 1) rest

/-- `format_filing_history` from the source: renders only `items[:15]`. -/
def format_filing_history : Option FilingData → String
  | none => "=== FILING HISTORY ===\n\nNo filing history available\n"
  | some d =>
    match d.items with
    | none => "=== FILING HISTORY ===\n\nNo filing history available\n"
    | some items =>
        "=== FILING HISTORY ===\n\n" ++
        "Total Filings: " ++ toString (d.total_count.getD 0) ++ "\n\n" ++
        renderFilings 1 (items.take 15)

/-! ## Network model

A network call either raises (`exn`, caught by the surrounding `try`) or
yields a status code and a parsed body.  The `Env` record is the oracle for
every request the pipeline can make. -/

inductive Fetch (α : Type) where
  | exn : Fetch α
  | resp : Nat → α → Fetch α
deriving DecidableEq, Repr

/-- A hyperlink element (`<a href=...>`) of a parsed listing page. -/
structure Link where
  href : String
  text : String
deriving DecidableEq, Repr

/-- An entry of `all_pdf_links`: absolute URL, description, source page. -/
structure DocumentLink where
  url : String
  description : String
  page : Nat
deriving DecidableEq, Repr

/-- The network environment of one extraction run. -/
structure Env where
  connResp : Fetch Unit
  profileResp : Fetch (Option ProfileData)
  officersResp : Fetch (Option OfficersData)
  pscResp : Fetch (Option PscData)
  filingResp : Fetch (Option FilingData)
  listingPage : Nat → Fetch (List Link)
  download : String → Fetch String
  now : String

/-- One network request issued by the pipeline, for auditing traces. -/
inductive Request where
  | connectivity
  | profile
  | officers
  | psc
  | filing
  | listing (page : Nat)
  | document (url : String)
deriving DecidableEq, Repr

/-! ## Registry Client (the API getters) -/

/-- `test_api_connection`: success exactly on status 200 or 404. -/
def test_api_connection (env : Env) : Bool :=
  match env.connResp with
  | .resp s _ => s == 200 || s == 404
  | .exn => false

/-- `get_company_profile_api`: body on 200, empty dict otherwise. -/
def get_company_profile_api (env : Env) : Option ProfileData :=
  match env.profileResp with
  | .resp 200 d => d
  | _ => none

/-- `get_officers_api`: body on 200, empty dict otherwise. -/
def get_officers_api (env : Env) : Option OfficersData :=
  match env.officersResp with
  | .resp 200 d => d
  | _ => none

/-- `get_psc_api`: body on 200, empty dict otherwise. -/
def get_psc_api (env : Env) : Option PscData :=
  match env.pscResp with
  | .resp 200 d => d
  | _ => none

/-- `get_filing_history_api`: body on 200, empty dict otherwise. -/
def get_filing_history_api (env : Env) : Option FilingData :=
  match env.filingResp with
  | .resp 200 d => d
  | _ => none

/-! ## Document Locator (`get_pdf_links_scraping`) -/

/-- The web base, hardcoded both in `web_base` and in the URL-resolution
branch of the scraping loop. -/
def webBase : String :=
  "https://find-and-update.company-information.service.gov.uk"

/-- The link-classification body: marker match (`pdf`/`view pdf`/`document`),
then URL resolution (`/`-relative resolved, non-`http` discarded). -/
def classifyLink (pageNum : Nat) (l : Link) : Option DocumentLink :=
  let text := pyStrip l.text
  if strContains (pyLower l.href) "pdf" || strContains (pyLower text) "view pdf"
      || strContains (pyLower l.href) "document" then
    if pyStartsWith l.href "/" then
      some ⟨webBase ++ l.href, text, pageNum⟩
    else if pyStartsWith l.href "http" then
      some ⟨l.href, text, pageNum⟩
    else none
  else none

/-- `page_pdf_links` for one fetched page. -/
def pageCandidates (pageNum : Nat) (links : List Link) : List DocumentLink :=
  links.filterMap (classifyLink pageNum)

/-- One pagination link's continuation test: `'next' in text`, or
`page={n+1}` in the href, or a numeric text greater than the current page. -/
def linkSignalsNext (pageNum : Nat) (l : Link) : Bool :=
  let text := pyLower (pyStrip l.text)
  strContains text "next" ||
  strContains l.href ("page=" ++ toString (pageNum + 1)) ||
  (pyIsDigit text && decide (pyInt text > pageNum))

/-- `has_next_page`: first pass over all links, then the fallback second pass
that looks only for `page={n+1}` in hrefs. -/
def hasNextPage (links : List Link) (pageNum : Nat) : Bool :=
  links.any (linkSignalsNext pageNum) ||
  links.any fun l => strContains l.href ("page=" ++ toString (pageNum + 1))

/-- The `while page_num <= max_pages` loop, with `fuel` pages remaining.
Returns the accumulated `DocumentLink`s and the trace of fetched pages.
A raised fetch (`exn`) is caught by the outer `try` and returns the
accumulator; a non-200 status or an empty candidate list breaks the loop. -/
def scrapeGo (fetchPage : Nat → Fetch (List Link)) :
    Nat → Nat → List DocumentLink → List Nat → List DocumentLink × List Nat
  | 0, _, acc, tr => (acc, tr)
  | fuel + 1, pageNum, acc, tr =>
    match fetchPage pageNum with
    | .exn => (acc, tr ++ [pageNum])
    | .resp status links =>
      if status ≠ 200 then (acc, tr ++ [pageNum])
      else if (pageCandidates pageNum links).isEmpty then (acc, tr ++ [pageNum])
      else if hasNextPage links pageNum then
        scrapeGo fetchPage fuel (pageNum + 1)
          (acc ++ pageCandidates pageNum links) (tr ++ [pageNum])
      else (acc ++ pageCandidates pageNum links, tr ++ [pageNum])

/-- `get_pdf_links_scraping` with its fetch trace: pages 1.. up to the cap
of 20 (`max_pages`). -/
def get_pdf_links_traced (fetchPage : Nat → Fetch (List Link)) :
    List DocumentLink × List Nat :=
  scrapeGo fetchPage 20 1 [] []

/-- `get_pdf_links_scraping` from the source. -/
def get_pdf_links_scraping (fetchPage : Nat → Fetch (List Link)) :
    List DocumentLink :=
  (get_pdf_links_traced fetchPage).1

/-- The located links of a run. -/
def locatedLinks (env : Env) : List DocumentLink :=
  get_pdf_links_scraping env.listingPage

/-- The pages fetched by the locator during a run. -/
def scrapeTrace (env : Env) : List Nat :=
  (get_pdf_links_traced env.listingPage).2

/-! ## Download Manager -/

/-- `download_pdf`: the written file content on a 200, `none` otherwise. -/
def download_pdf (env : Env) (url : String) : Option String :=
  match env.download url with
  | .resp 200 content => some content
  | _ => none

/-- `f"filing_document_{i+1}_{company_id}.pdf"` for 0-based loop index `i`. -/
def pdfFileName (cid : String) (i : Nat) : String :=
  "filing_document_" ++ toString (i + 1) ++ "_" ++ cid ++ ".pdf"

/-- One `pdf_log` line of the download loop. -/
def downloadLogLine (cid : String) (i : Nat) (l : DocumentLink) :
    Option String → String
  | some _ =>
      "✅ Downloaded: " ++ pdfFileName cid i ++ " (Page " ++
      toString l.page ++ ")\n"
  | none =>
      "❌ Failed: " ++ l.description ++ " (Page " ++ toString l.page ++ ")\n"

/-- The download loop `for i, pdf_info in enumerate(pdf_links)`: every link
is attempted, each outcome recorded with its 0-based index. -/
def downloadResults (env : Env) (links : List DocumentLink) :
    List (Nat × DocumentLink × Option String) :=
  links.enum.map fun p => (p.1, p.2, download_pdf env p.2.url)

/-- `pdf_files` (successes only), as archive entries `(basename, content)`. -/
def pdfFilesOf (cid : String)
    (results : List (Nat × DocumentLink × Option String)) :
    List (String × String) :=
  results.filterMap fun r => r.2.2.map fun c => (pdfFileName cid r.1, c)

/-- The `pdf_log` lines, one per attempted download, in order. -/
def pdfLogLines (cid : String)
    (results : List (Nat × DocumentLink × Option String)) : List String :=
  results.map fun r => downloadLogLine cid r.1 r.2.1 r.2.2

/-- The full `pdf_log` string. -/
def pdfLogOf (cid : String)
    (results : List (Nat × DocumentLink × Option String)) : String :=
  "\n=== PDF DOCUMENTS ===\n\n" ++ String.join (pdfLogLines cid results)

/-! ## Archive Builder (`create_zip_file`) -/

/-- `max([pdf.get('page', 1) for pdf in pdf_links]) if pdf_links else 1`. -/
def pagesScrapedValue (links : List DocumentLink) : Nat :=
  match links with
  | [] => 1
  | l :: ls => (ls.map DocumentLink.page).foldl Nat.max l.page

/-- The `summary_text` string; `nText` is `len(files_created)` at the moment
the summary is built (before the summary file itself is appended). -/
def summaryText (cid nowStr : String) (nText nPdf : Nat)
    (links : List DocumentLink) : String :=
  "=== COMPANY DATA EXTRACTION SUMMARY ===\n\n" ++
  "Company ID: " ++ cid ++ "\n" ++
  "Extraction Date: " ++ nowStr ++ "\n" ++
  "Method: Hybrid (Companies House API + Multi-Page Web Scraping)\n\n" ++
  "Files Created: " ++ toString nText ++ " text files\n" ++
  "PDFs Downloaded: " ++ toString nPdf ++ "\n" ++
  "Pages Scraped: " ++ toString (pagesScrapedValue links) ++ "\n"

/-- The four text files written before the summary, as `(basename, content)`
pairs in write order. -/
def textFilesList (cid : String) (env : Env) : List (String × String) :=
  [(cid ++ "_overview.txt", format_company_profile (get_company_profile_api env)),
   (cid ++ "_officers.txt", format_officers (get_officers_api env)),
   (cid ++ "_psc.txt", format_psc (get_psc_api env)),
   (cid ++ "_filing_history.txt",
     format_filing_history (get_filing_history_api env) ++
     pdfLogOf cid (downloadResults env (locatedLinks env)))]

/-- The result of `create_zip_file`: the archive (entry name ↦ content, in
zip write order), the returned artifact count, and the requests issued. -/
structure RunResult where
  archive : Option (List (String × String))
  count : Nat
  requests : List Request
deriving Repr

/-- `create_zip_file` from the source, instrumented with its request trace.
If the connectivity pre-check fails, it returns `(None, 0)` having issued
only that one request; otherwise it fetches the four structured records,
scrapes the listing pages, attempts every download, writes the five text
files and zips them followed by the downloaded documents. -/
def create_zip_file_run (cid : String) (env : Env) : RunResult :=
  if test_api_connection env then
    let links := locatedLinks env
    let results := downloadResults env links
    let pdfFiles := pdfFilesOf cid results
    let textFiles := textFilesList cid env
    let summary := summaryText cid env.now textFiles.length pdfFiles.length links
    let allTextFiles := textFiles ++ [(cid ++ "_summary.txt", summary)]
    { archive := some (allTextFiles ++ pdfFiles),
      count := allTextFiles.length + pdfFiles.length,
      requests :=
        [.connectivity, .profile, .officers, .psc, .filing] ++
        (scrapeTrace env).map Request.listing ++
        links.map fun l => Request.document l.url }
  else
    { archive := none, count := 0, requests := [.connectivity] }

/-- The caller-visible return value of `create_zip_file`. -/
def create_zip_file (cid : String) (env : Env) :
    Option (List (String × String)) × Nat :=
  ((create_zip_file_run cid env).archive, (create_zip_file_run cid env).count)

/-! ## Extraction Session (the re-entrant branch of `main`) -/

/-- The durable Streamlit session keys the extraction branch reads/writes. -/
structure SessionState where
  extraction_in_progress : Bool
  extraction_complete : Bool
  zip_data : Option (List (String × String))
  file_count : Nat
  selected_company : String
deriving Repr

/-- What the extraction branch renders to the user on one invocation. -/
inductive StepView where
  /-- The `extraction_complete` branch: stored bytes and count are offered
  for download, nothing is fetched. -/
  | completeView (zipData : Option (List (String × String))) (fileCount : Nat)
  /-- The pipeline just ran successfully and the page reruns. -/
  | extracting
  /-- The pipeline failed; the session leaves the in-progress state. -/
  | failed
deriving Repr

/-- The `extraction_in_progress` branch of `main`: if the session is already
complete, render the stored result without constructing a scraper; otherwise
run `create_zip_file` and persist its outcome. -/
def extractionStep (env : Env) (s : SessionState) :
    SessionState × List Request × StepView :=
  if s.extraction_complete then
    (s, [], .completeView s.zip_data s.file_count)
  else
    let run := create_zip_file_run s.selected_company env
    match run.archive with
    | some _ =>
        ({ s with zip_data := run.archive, file_count := run.count,
                  extraction_complete := true },
         run.requests, .extracting)
    | none =>
        ({ s with extraction_in_progress := false }, run.requests, .failed)

/-! ## Helper lemmas -/

theorem string_join_cons (s : String) (l : List String) :
    String.join (s :: l) = s ++ String.join l := by
  cases s
  simp [String.join_eq]
  rfl

/-- `renderFilings` emits exactly one block per list element, indexed from
`i` in order. -/
theorem renderFilings_eq_join (i : Nat) (l : List Filing) :
    renderFilings i l =
      String.join ((l.enumFrom i).map fun p => renderFiling p.1 p.2) := by
  induction l generalizing i with
  | nil => rfl
  | cons f rest ih =>
      simp only [renderFilings, List.enumFrom, List.map_cons, string_join_cons]
      rw [ih]

/-- Every candidate extracted from page `p` is tagged with page `p`. -/
theorem pageCandidates_page (p : Nat) (links : List Link) :
    ∀ l ∈ pageCandidates p links, l.page = p := by
  intro l hl
  rw [pageCandidates, List.mem_filterMap] at hl
  obtain ⟨a, _, ha⟩ := hl
  simp only [classifyLink] at ha
  split_ifs at ha <;> cases ha <;> rfl

/-- The list of consecutive page numbers `p, p+1, ..., p+n-1`. -/
def pagesFrom (p : Nat) : Nat → List Nat
  | 0 => []
  | n + 1 => p :: pagesFrom (p + 1) n

theorem mem_pagesFrom (q p n : Nat) : q ∈ pagesFrom p n ↔ p ≤ q ∧ q < p + n := by
  induction n generalizing p with
  | zero => simp [pagesFrom]
  | succ m ih =>
      simp only [pagesFrom, List.mem_cons, ih]
      omega

/-- If every page from `pageNum` through the remaining fuel responds with
status 200, exactly one candidate and a continuation signal, the loop
consumes all its fuel: one candidate per page, every page fetched. -/
theorem scrapeGo_saturated (fetchPage : Nat → Fetch (List Link)) :
    ∀ (fuel pageNum : Nat) (acc : List DocumentLink) (tr : List Nat),
      (∀ q, pageNum ≤ q → q < pageNum + fuel →
        ∃ links, fetchPage q = Fetch.resp 200 links ∧
          (pageCandidates q links).length = 1 ∧ hasNextPage links q = true) →
      (scrapeGo fetchPage fuel pageNum acc tr).1.length = acc.length + fuel ∧
      (scrapeGo fetchPage fuel pageNum acc tr).2 = tr ++ pagesFrom pageNum fuel := by
  intro fuel
  induction fuel with
  | zero => intro p acc tr _; simp [scrapeGo, pagesFrom]
  | succ n ih =>
      intro p acc tr h
      obtain ⟨links, hf, hc, hn⟩ := h p (Nat.le_refl p) (by omega)
      have hne : ¬ ((pageCandidates p links).isEmpty = true) := by
        cases hcc : pageCandidates p links with
        | nil => rw [hcc] at hc; simp at hc
        | cons a t => simp [List.isEmpty]
      have ih' := ih (p + 1) (acc ++ pageCandidates p links) (tr ++ [p])
        (fun q hq1 hq2 => h q (by omega) (by omega))
      have hstep : scrapeGo fetchPage (n + 1) p acc tr =
          scrapeGo fetchPage n (p + 1) (acc ++ pageCandidates p links)
            (tr ++ [p]) := by
        simp [scrapeGo, hf, hne, hn]
      rw [hstep]
      refine ⟨?_, ?_⟩
      · rw [ih'.1, List.length_append, hc]; omega
      · rw [ih'.2, pagesFrom, List.append_assoc, List.singleton_append]

/-- Every link returned by the scraping loop originates from a fetched
page: its page tag occurs in the fetch trace. -/
theorem scrapeGo_pages_in_trace (fetchPage : Nat → Fetch (List Link)) :
    ∀ (fuel pageNum : Nat) (acc : List DocumentLink) (tr : List Nat),
      (∀ l ∈ acc, l.page ∈ tr) →
      ∀ l ∈ (scrapeGo fetchPage fuel pageNum acc tr).1,
        l.page ∈ (scrapeGo fetchPage fuel pageNum acc tr).2 := by
  intro fuel
  induction fuel with
  | zero => intro p acc tr hacc; simpa [scrapeGo] using hacc
  | succ n ih =>
      intro p acc tr hacc l
      have htriv : ∀ x ∈ acc, DocumentLink.page x ∈ tr ++ [p] :=
        fun x hx => List.mem_append_left _ (hacc x hx)
      cases hf : fetchPage p with
      | exn =>
          have hstep : scrapeGo fetchPage (n + 1) p acc tr = (acc, tr ++ [p]) := by
            simp [scrapeGo, hf]
          rw [hstep]
          exact htriv l
      | resp status links =>
          by_cases hs : status = 200
          · subst hs
            by_cases hemp : (pageCandidates p links).isEmpty = true
            · have hstep : scrapeGo fetchPage (n + 1) p acc tr =
                  (acc, tr ++ [p]) := by
                simp [scrapeGo, hf, hemp]
              rw [hstep]
              exact htriv l
            · have haccx : ∀ x ∈ acc ++ pageCandidates p links,
                  DocumentLink.page x ∈ tr ++ [p] := by
                intro x hx
                rcases List.mem_append.mp hx with h1 | h2
                · exact htriv x h1
                · rw [pageCandidates_page p links x h2]
                  exact List.mem_append_right _ (List.mem_singleton.mpr rfl)
              by_cases hnx : hasNextPage links p = true
              · have hstep : scrapeGo fetchPage (n + 1) p acc tr =
                    scrapeGo fetchPage n (p + 1)
                      (acc ++ pageCandidates p links) (tr ++ [p]) := by
                  simp [scrapeGo, hf, hemp, hnx]
                rw [hstep]
                exact ih (p + 1) (acc ++ pageCandidates p links) (tr ++ [p])
                  haccx l
              · have hstep : scrapeGo fetchPage (n + 1) p acc tr =
                    (acc ++ pageCandidates p links, tr ++ [p]) := by
                  simp [scrapeGo, hf, hemp, hnx]
                rw [hstep]
                exact haccx l
          · have hstep : scrapeGo fetchPage (n + 1) p acc tr =
                (acc, tr ++ [p]) := by
              simp [scrapeGo, hf, hs]
            rw [hstep]
            exact htriv l

/-! ## Concrete environments for witnesses and counterexamples -/

/-- A candidate link: `pdf` marker in the href, site-relative. -/
def linkPdf : Link := ⟨"/doc1.pdf", "View PDF "⟩

/-- A second candidate link. -/
def linkPdf2 : Link := ⟨"/doc2.pdf", "View PDF"⟩

/-- A pagination link whose visible text contains `next`; not a candidate. -/
def linkNext : Link := ⟨"/filing-history?page=x", "Next"⟩

/-- A link that is neither a candidate nor a continuation signal. -/
def linkPlain : Link := ⟨"/about", "About"⟩

/-- Minimal environment: connectivity succeeds, everything else raises. -/
def envMin : Env :=
  { connResp := .resp 200 ()
    profileResp := .exn
    officersResp := .exn
    pscResp := .exn
    filingResp := .exn
    listingPage := fun _ => .exn
    download := fun _ => .exn
    now := "NOW" }

/-- A second, different environment (connectivity raises) used to show the
complete-session branch consults the network of neither environment. -/
def envAlt : Env := { envMin with connResp := .exn, now := "LATER" }

/-- Environment whose connectivity pre-check gets an authentication
failure (HTTP 401). -/
def envBadConn : Env := { envMin with connResp := .resp 401 () }

/-- Environment for the download-naming scenario: two located documents on
page 1; the first download fails with HTTP 500, the second succeeds. -/
def envTwoDocs : Env :=
  { envMin with
    listingPage := fun p =>
      if p = 1 then .resp 200 [linkPdf, linkPdf2] else .exn
    download := fun u =>
      if u = webBase ++ "/doc2.pdf" then .resp 200 "BYTES" else .resp 500 "" }

/-- Listing fetcher for the pages-scraped scenario: page 1 has one
candidate and a `Next` signal, page 2 is fetched and yields none. -/
def fetchTwoPages : Nat → Fetch (List Link)
  | 1 => .resp 200 [linkPdf, linkNext]
  | 2 => .resp 200 [linkPlain]
  | _ => .exn

/-- Environment for the pages-scraped scenario. -/
def envTwoPages : Env := { envMin with listingPage := fetchTwoPages }

/-- Listing fetcher where every page yields one candidate and a `Next`
continuation signal. -/
def fetchEndless : Nat → Fetch (List Link) := fun _ => .resp 200 [linkPdf, linkNext]

/-- Listing fetcher whose first page has pagination links but no candidate
document links. -/
def fetchEmptyFirst : Nat → Fetch (List Link)
  | 1 => .resp 200 [linkNext, linkPlain]
  | _ => .exn

/-- A fresh session bound to company `"X"`, extraction about to start. -/
def sessionStart : SessionState :=
  { extraction_in_progress := true
    extraction_complete := false
    zip_data := none
    file_count := 0
    selected_company := "X" }

/-- The archive produced by running the pipeline for `"X"` against
`envMin`. -/
def archiveMin : List (String × String) :=
  ((create_zip_file_run "X" envMin).archive).getD []

/-! ## Claim theorems -/

/-- C1: a session whose extraction completed (archive bytes and count
stored) renders, on the next invocation of the extraction entry point, the
stored archive bytes and file count, issues no network request at all (the
second environment is arbitrary and unused), and leaves the session state
unchanged — the pipeline is not re-run. -/
theorem session_complete_idempotent (env1 env2 : Env) (s : SessionState)
    (a : List (String × String))
    (hnc : s.extraction_complete = false)
    (ha : (create_zip_file_run s.selected_company env1).archive = some a) :
    extractionStep env2 (extractionStep env1 s).1 =
      ((extractionStep env1 s).1, [],
        StepView.completeView (some a)
          (create_zip_file_run s.selected_company env1).count) := by
  have hs1 : (extractionStep env1 s).1 =
      { s with zip_data := some a,
               file_count := (create_zip_file_run s.selected_company env1).count,
               extraction_complete := true } := by
    rw [extractionStep, if_neg (by rw [hnc]; exact Bool.false_ne_true)]
    simp only [ha]
  rw [hs1, extractionStep, if_pos rfl]

/-- Witness for C1 at a concrete session and two different environments. -/
theorem session_complete_idempotent_witness :
    sessionStart.extraction_complete = false ∧
    (create_zip_file_run sessionStart.selected_company envMin).archive =
      some archiveMin ∧
    extractionStep envAlt (extractionStep envMin sessionStart).1 =
      ((extractionStep envMin sessionStart).1, [],
        StepView.completeView (some archiveMin)
          (create_zip_file_run sessionStart.selected_company envMin).count) :=
  ⟨rfl, by decide,
    session_complete_idempotent envMin envAlt sessionStart archiveMin rfl
      (by decide)⟩

/-- C2: the connectivity pre-check succeeds exactly on HTTP 200 or 404 (an
exception or any other status fails it), and when it fails the extraction
returns no archive and a count of 0 having issued only the single
connectivity request. -/
theorem connectivity_precheck_gates_pipeline (cid : String) (env : Env) :
    (test_api_connection env = true ↔
      env.connResp = Fetch.resp 200 () ∨ env.connResp = Fetch.resp 404 ()) ∧
    (test_api_connection env = false →
      create_zip_file cid env = (none, 0) ∧
      (create_zip_file_run cid env).requests = [Request.connectivity]) := by
  constructor
  · rw [test_api_connection]
    cases env.connResp with
    | exn => simp
    | resp s u => cases u; simp
  · intro hf
    rw [create_zip_file, create_zip_file_run, if_neg (by rw [hf]; exact Bool.false_ne_true)]
    exact ⟨rfl, rfl⟩

/-- Witness for C2: an authentication failure (HTTP 401) fails the
pre-check and aborts with no archive and only the connectivity request. -/
theorem connectivity_precheck_gates_pipeline_witness :
    test_api_connection envBadConn = false ∧
    create_zip_file "X" envBadConn = (none, 0) ∧
    (create_zip_file_run "X" envBadConn).requests = [Request.connectivity] :=
  ⟨rfl, (connectivity_precheck_gates_pipeline "X" envBadConn).2 rfl⟩

/-- C5: at any point of the scan, a page that is fetched with status 200
and yields zero candidate links stops the locator right after that page:
it returns exactly what was collected so far, whatever continuation
signals the page carries. -/
theorem locator_stops_on_empty_page (fetchPage : Nat → Fetch (List Link))
    (fuel pageNum : Nat) (acc : List DocumentLink) (tr : List Nat)
    (links : List Link)
    (hfuel : 0 < fuel)
    (hfetch : fetchPage pageNum = Fetch.resp 200 links)
    (hempty : pageCandidates pageNum links = []) :
    scrapeGo fetchPage fuel pageNum acc tr = (acc, tr ++ [pageNum]) := by
  cases fuel with
  | zero => omega
  | succ n => simp [scrapeGo, hfetch, hempty]

/-- Witness for C5: the first page carries a `Next` pagination signal but
no candidate link; the scan stops there with nothing collected. -/
theorem locator_stops_on_empty_page_witness :
    0 < 20 ∧
    fetchEmptyFirst 1 = Fetch.resp 200 [linkNext, linkPlain] ∧
    pageCandidates 1 [linkNext, linkPlain] = [] ∧
    hasNextPage [linkNext, linkPlain] 1 = true ∧
    get_pdf_links_traced fetchEmptyFirst = ([], [1]) :=
  ⟨by decide, rfl, by decide, by decide,
    locator_stops_on_empty_page fetchEmptyFirst 20 1 [] [] [linkNext, linkPlain]
      (by decide) rfl (by decide)⟩

/-- C4: if 20 consecutive pages (1 through 20) each respond with exactly
one candidate link and a valid continuation signal, the locator returns
exactly 20 `DocumentLink` entries, the fetch trace is pages 1 to 20, and
page 21 is never fetched — the page cap is enforced. -/
theorem locator_page_cap (fetchPage : Nat → Fetch (List Link))
    (h : ∀ q, 1 ≤ q → q ≤ 20 →
      ∃ links, fetchPage q = Fetch.resp 200 links ∧
        (pageCandidates q links).length = 1 ∧ hasNextPage links q = true) :
    (get_pdf_links_scraping fetchPage).length = 20 ∧
    (get_pdf_links_traced fetchPage).2 = pagesFrom 1 20 ∧
    21 ∉ (get_pdf_links_traced fetchPage).2 := by
  have hs := scrapeGo_saturated fetchPage 20 1 [] []
    (fun q hq1 hq2 => h q hq1 (by omega))
  refine ⟨by simpa [get_pdf_links_scraping, get_pdf_links_traced] using hs.1,
    by simpa [get_pdf_links_traced] using hs.2, ?_⟩
  have h2 : (get_pdf_links_traced fetchPage).2 = pagesFrom 1 20 := by
    simpa [get_pdf_links_traced] using hs.2
  rw [h2, mem_pagesFrom]
  omega

/-- Witness for C4: an endless listing (every page one candidate plus a
`Next` signal) is cut off at the 20-page cap. -/
theorem locator_page_cap_witness :
    (∀ q, 1 ≤ q → q ≤ 20 →
      ∃ links, fetchEndless q = Fetch.resp 200 links ∧
        (pageCandidates q links).length = 1 ∧ hasNextPage links q = true) ∧
    (get_pdf_links_scraping fetchEndless).length = 20 ∧
    (get_pdf_links_traced fetchEndless).2 = pagesFrom 1 20 ∧
    21 ∉ (get_pdf_links_traced fetchEndless).2 :=
  ⟨fun _ _ _ => ⟨[linkPdf, linkNext], rfl, rfl, rfl⟩,
    locator_page_cap fetchEndless
      (fun _ _ _ => ⟨[linkPdf, linkNext], rfl, rfl, rfl⟩)⟩

/-- C6: for a filing-history record with more than 15 items, the rendered
text is the header, a `Total Filings` line carrying the source's
`total_count` unchanged, and one rendered block per element of the
15-element source-order prefix of the item list — exactly 15 entries. -/
theorem filing_history_display_cap (d : FilingData) (items : List Filing)
    (t : Nat)
    (hi : d.items = some items) (ht : d.total_count = some t)
    (hlen : 15 < items.length) :
    format_filing_history (some d) =
      "=== FILING HISTORY ===\n\n" ++ "Total Filings: " ++ toString t ++
        "\n\n" ++
        String.join
          (((items.take 15).enumFrom 1).map fun p => renderFiling p.1 p.2) ∧
    (items.take 15).length = 15 ∧
    items.take 15 ++ items.drop 15 = items := by
  refine ⟨?_, ?_, List.take_append_drop 15 items⟩
  · simp only [format_filing_history, hi, ht, Option.getD_some,
      renderFilings_eq_join]
  · rw [List.length_take]
    omega

/-- 16 filings with no optional fields, for the C6 witness. -/
def filingsWit : List Filing := List.replicate 16 {}

/-- A filing-history payload longer than the display cap. -/
def filingDataWit : FilingData :=
  { total_count := some 99, items := some filingsWit }

/-- Witness for C6 at a 16-item filing history with total count 99. -/
theorem filing_history_display_cap_witness :
    filingDataWit.items = some filingsWit ∧
    filingDataWit.total_count = some 99 ∧
    15 < filingsWit.length ∧
    (format_filing_history (some filingDataWit) =
      "=== FILING HISTORY ===\n\n" ++ "Total Filings: " ++ toString 99 ++
        "\n\n" ++
        String.join
          (((filingsWit.take 15).enumFrom 1).map fun p =>
            renderFiling p.1 p.2) ∧
     (filingsWit.take 15).length = 15 ∧
     filingsWit.take 15 ++ filingsWit.drop 15 = filingsWit) :=
  ⟨rfl, rfl, by decide,
    filing_history_display_cap filingDataWit filingsWit 99 rfl rfl (by decide)⟩

/-- C3: once the connectivity pre-check passes, every located document is
attempted, each success lands in the produced archive under its name, each
failure gets its own line in the download log, and the archive still holds
all five text sections — no single download failure aborts anything. -/
theorem download_failure_isolation (cid : String) (env : Env)
    (hc : test_api_connection env = true) :
    ∃ ar, (create_zip_file cid env).1 = some ar ∧
      (downloadResults env (locatedLinks env)).map (fun r => r.2.1) =
        locatedLinks env ∧
      (∀ i l c, (i, l, some c) ∈ downloadResults env (locatedLinks env) →
        (pdfFileName cid i, c) ∈ ar) ∧
      (∀ e ∈ textFilesList cid env, e ∈ ar) ∧
      (cid ++ "_summary.txt",
        summaryText cid env.now (textFilesList cid env).length
          (pdfFilesOf cid (downloadResults env (locatedLinks env))).length
          (locatedLinks env)) ∈ ar ∧
      (∀ i l, (i, l, none) ∈ downloadResults env (locatedLinks env) →
        downloadLogLine cid i l none ∈
          pdfLogLines cid (downloadResults env (locatedLinks env))) := by
  refine ⟨(textFilesList cid env ++
      [(cid ++ "_summary.txt",
        summaryText cid env.now (textFilesList cid env).length
          (pdfFilesOf cid (downloadResults env (locatedLinks env))).length
          (locatedLinks env))]) ++
      pdfFilesOf cid (downloadResults env (locatedLinks env)),
    ?_, ?_, ?_, ?_, ?_, ?_⟩
  · rw [create_zip_file, create_zip_file_run, if_pos hc]
  · rw [downloadResults, List.map_map]
    exact List.enum_map_snd (locatedLinks env)
  · intro i l c hmem
    refine List.mem_append_right _ ?_
    rw [pdfFilesOf, List.mem_filterMap]
    exact ⟨(i, l, some c), hmem, rfl⟩
  · intro e he
    exact List.mem_append_left _ (List.mem_append_left _ he)
  · exact List.mem_append_left _
      (List.mem_append_right _ (List.mem_singleton.mpr rfl))
  · intro i l hmem
    rw [pdfLogLines]
    exact List.mem_map_of_mem _ hmem

/-- Witness for C3 at an environment where the first of two located
documents fails with HTTP 500 and the second succeeds. -/
theorem download_failure_isolation_witness :
    test_api_connection envTwoDocs = true ∧
    (∃ ar, (create_zip_file "X" envTwoDocs).1 = some ar ∧
      (downloadResults envTwoDocs (locatedLinks envTwoDocs)).map
        (fun r => r.2.1) = locatedLinks envTwoDocs ∧
      (∀ i l c,
        (i, l, some c) ∈ downloadResults envTwoDocs (locatedLinks envTwoDocs) →
        (pdfFileName "X" i, c) ∈ ar) ∧
      (∀ e ∈ textFilesList "X" envTwoDocs, e ∈ ar) ∧
      ("X" ++ "_summary.txt",
        summaryText "X" envTwoDocs.now (textFilesList "X" envTwoDocs).length
          (pdfFilesOf "X"
            (downloadResults envTwoDocs (locatedLinks envTwoDocs))).length
          (locatedLinks envTwoDocs)) ∈ ar ∧
      (∀ i l,
        (i, l, none) ∈ downloadResults envTwoDocs (locatedLinks envTwoDocs) →
        downloadLogLine "X" i l none ∈
          pdfLogLines "X"
            (downloadResults envTwoDocs (locatedLinks envTwoDocs)))) :=
  ⟨rfl, download_failure_isolation "X" envTwoDocs rfl⟩

/-- C9: the produced archive's entries appear in exactly the order
overview, officers, PSC, filing history, summary, then the successfully
downloaded documents in download order, each under its base name. -/
theorem archive_entry_order (cid : String) (env : Env)
    (hc : test_api_connection env = true) :
    ∃ ar, (create_zip_file cid env).1 = some ar ∧
      ar.map Prod.fst =
        [cid ++ "_overview.txt", cid ++ "_officers.txt", cid ++ "_psc.txt",
         cid ++ "_filing_history.txt", cid ++ "_summary.txt"] ++
        (downloadResults env (locatedLinks env)).filterMap
          (fun r => r.2.2.map fun _ => pdfFileName cid r.1) := by
  refine ⟨_, by rw [create_zip_file, create_zip_file_run, if_pos hc], ?_⟩
  simp only [List.map_append, textFilesList, pdfFilesOf, List.map_filterMap,
    Option.map_map, List.map_cons, List.map_nil]
  exact rfl

/-- Witness for C9 at the two-document environment. -/
theorem archive_entry_order_witness :
    test_api_connection envTwoDocs = true ∧
    (∃ ar, (create_zip_file "X" envTwoDocs).1 = some ar ∧
      ar.map Prod.fst =
        ["X" ++ "_overview.txt", "X" ++ "_officers.txt", "X" ++ "_psc.txt",
         "X" ++ "_filing_history.txt", "X" ++ "_summary.txt"] ++
        (downloadResults envTwoDocs (locatedLinks envTwoDocs)).filterMap
          (fun r => r.2.2.map fun _ => pdfFileName "X" r.1)) :=
  ⟨rfl, archive_entry_order "X" envTwoDocs rfl⟩

/-- C10: the run summary is written with a `Files Created` figure of 4 —
the count of text files before the summary itself is appended — even
though five text entries go into the archive and the returned artifact
count is 5 plus the number of downloaded documents. -/
theorem summary_reports_four_text_files (cid : String) (env : Env)
    (hc : test_api_connection env = true) :
    (textFilesList cid env).length = 4 ∧
    (create_zip_file cid env).1 =
      some ((textFilesList cid env ++
        [(cid ++ "_summary.txt",
          summaryText cid env.now 4
            (pdfFilesOf cid (downloadResults env (locatedLinks env))).length
            (locatedLinks env))]) ++
        pdfFilesOf cid (downloadResults env (locatedLinks env))) ∧
    (create_zip_file cid env).2 =
      5 + (pdfFilesOf cid (downloadResults env (locatedLinks env))).length := by
  refine ⟨rfl, ?_, ?_⟩
  · rw [create_zip_file, create_zip_file_run, if_pos hc]
    exact rfl
  · rw [create_zip_file, create_zip_file_run, if_pos hc]
    exact rfl

/-- Witness for C10 at the minimal environment. -/
theorem summary_reports_four_text_files_witness :
    test_api_connection envMin = true ∧
    ((textFilesList "X" envMin).length = 4 ∧
     (create_zip_file "X" envMin).1 =
       some ((textFilesList "X" envMin ++
         [("X" ++ "_summary.txt",
           summaryText "X" envMin.now 4
             (pdfFilesOf "X"
               (downloadResults envMin (locatedLinks envMin))).length
             (locatedLinks envMin))]) ++
         pdfFilesOf "X" (downloadResults envMin (locatedLinks envMin))) ∧
     (create_zip_file "X" envMin).2 =
       5 + (pdfFilesOf "X" (downloadResults envMin (locatedLinks envMin))).length) :=
  ⟨rfl, summary_reports_four_text_files "X" envMin rfl⟩

/-- C7 counterexample: two documents are located; the download of the
first fails (HTTP 500) and the second succeeds.  The sole successfully
downloaded document — 1st among the successes in download order — is
nevertheless archived as `filing_document_2_X.pdf`, and no entry named
`filing_document_1_X.pdf` exists: the ordinal in the name is the position
among all located links, not among the successful downloads. -/
theorem pdf_naming_counterexample :
    downloadResults envTwoDocs (locatedLinks envTwoDocs) =
      [(0, ⟨webBase ++ "/doc1.pdf", "View PDF", 1⟩, none),
       (1, ⟨webBase ++ "/doc2.pdf", "View PDF", 1⟩, some "BYTES")] ∧
    ((create_zip_file "X" envTwoDocs).1.getD []).map Prod.fst =
      ["X_overview.txt", "X_officers.txt", "X_psc.txt",
       "X_filing_history.txt", "X_summary.txt", "filing_document_2_X.pdf"] := by
  decide

/-- C7 as amended: each successfully downloaded document is archived
under `filing_document_{n}_{id}.pdf` where `n` is its 1-based position
among ALL located document links in download-attempt order (`i` being the
0-based index into the located list), not among the successes only. -/
theorem pdf_naming_by_attempt_order (cid : String) (env : Env)
    (hc : test_api_connection env = true) :
    ∃ ar, (create_zip_file cid env).1 = some ar ∧
      ∀ i l c, (i, l, some c) ∈ downloadResults env (locatedLinks env) →
        (locatedLinks env).get? i = some l ∧
        ("filing_document_" ++ toString (i + 1) ++ "_" ++ cid ++ ".pdf", c)
          ∈ ar := by
  refine ⟨_, by rw [create_zip_file, create_zip_file_run, if_pos hc], ?_⟩
  intro i l c hmem
  constructor
  · rw [downloadResults] at hmem
    obtain ⟨p, hp, hfp⟩ := List.mem_map.mp hmem
    have h1 : p.1 = i := congrArg (fun x => x.1) hfp
    have h2 : p.2 = l := congrArg (fun x => x.2.1) hfp
    have := List.mem_enum_iff_getElem?.mp hp
    rw [List.get?_eq_getElem?, ← h1, ← h2]
    exact this
  · refine List.mem_append_right _ ?_
    rw [pdfFilesOf, List.mem_filterMap]
    exact ⟨(i, l, some c), hmem, rfl⟩

/-- Witness for the amended C7 at the two-document environment. -/
theorem pdf_naming_by_attempt_order_witness :
    test_api_connection envTwoDocs = true ∧
    (∃ ar, (create_zip_file "X" envTwoDocs).1 = some ar ∧
      ∀ i l c,
        (i, l, some c) ∈ downloadResults envTwoDocs (locatedLinks envTwoDocs) →
        (locatedLinks envTwoDocs).get? i = some l ∧
        ("filing_document_" ++ toString (i + 1) ++ "_" ++ "X" ++ ".pdf", c)
          ∈ ar) :=
  ⟨rfl, pdf_naming_by_attempt_order "X" envTwoDocs rfl⟩

/-- The content of the archive's fifth entry (the run summary file). -/
def summaryEntryContent (cid : String) (env : Env) : String :=
  (((create_zip_file cid env).1.getD []).getD 4 ("", "")).2

/-- C8 counterexample: page 1 yields one candidate and a `Next` signal, so
page 2 is fetched; it yields no candidates and the scan stops.  The
maximum page number actually scanned is 2 (the trace is `[1, 2]`), yet the
run summary reports `Pages Scraped: 1`, because the reported value is the
maximum page tag among located links, not the maximum page fetched. -/
theorem pages_scraped_counterexample :
    scrapeTrace envTwoPages = [1, 2] ∧
    locatedLinks envTwoPages = [⟨webBase ++ "/doc1.pdf", "View PDF", 1⟩] ∧
    strContains (summaryEntryContent "X" envTwoPages)
      "Pages Scraped: 1\n" = true ∧
    strContains (summaryEntryContent "X" envTwoPages)
      "Pages Scraped: 2" = false := by
  decide

/-- C8 as amended: the run summary's `Pages Scraped` line reports
`pagesScrapedValue` — the maximum originating page number among the
located document links, or 1 when none were located — and every such page
number is one of the pages actually fetched; a trailing page that was
fetched but yielded no candidate links is not reflected in the figure. -/
theorem pages_scraped_reports_link_pages (cid : String) (env : Env)
    (hc : test_api_connection env = true) :
    ∃ ar, (create_zip_file cid env).1 = some ar ∧
      ar.getD 4 ("", "") =
        (cid ++ "_summary.txt",
          summaryText cid env.now (textFilesList cid env).length
            (pdfFilesOf cid (downloadResults env (locatedLinks env))).length
            (locatedLinks env)) ∧
      (∀ l ∈ locatedLinks env, l.page ∈ scrapeTrace env) := by
  refine ⟨_, by rw [create_zip_file, create_zip_file_run, if_pos hc],
    ?_, ?_⟩
  · exact rfl
  · intro l hl
    exact scrapeGo_pages_in_trace env.listingPage 20 1 [] []
      (by intro x hx; cases hx) l hl

/-- Witness for the amended C8 at the two-page environment. -/
theorem pages_scraped_reports_link_pages_witness :
    test_api_connection envTwoPages = true ∧
    (∃ ar, (create_zip_file "X" envTwoPages).1 = some ar ∧
      ar.getD 4 ("", "") =
        ("X" ++ "_summary.txt",
          summaryText "X" envTwoPages.now (textFilesList "X" envTwoPages).length
            (pdfFilesOf "X"
              (downloadResults envTwoPages (locatedLinks envTwoPages))).length
            (locatedLinks envTwoPages)) ∧
      (∀ l ∈ locatedLinks envTwoPages, l.page ∈ scrapeTrace envTwoPages)) :=
  ⟨rfl, pages_scraped_reports_link_pages "X" envTwoPages rfl⟩

end Coho
